import Mathlib

/-!
Verification of the drowsiness-detector program (`drowsiness_detector.py`).

The development shallowly embeds the parts of the program the specification
talks about:

* the per-frame drowsiness state machine of the main frame loop
  (`COUNTER`, `ALARM_ON`, the alarm-thread spawn guard), lines 343-369 and
  391-394 of the source;
* the EAR calculator `calculate_eye_ratio`, lines 231-262;
* the audio-backend selector `check_audio_library`, lines 46-115;
* the alarm playback routine `play_audio_file` (lines 118-158) and one
  iteration of the alarm loop of `trigger_continuous_alarm` (lines 161-229),
  with Python exceptions embedded as `Except` values.

EAR values are embedded as rationals, landmark coordinates as real numbers,
and sleep durations as natural numbers of milliseconds.
-/

namespace Drowsiness

/-! ## Drowsiness state machine (frame loop, lines 343-369 and 391-394)

The mutable module globals `COUNTER`, `ALARM_ON` and the number of alarm
threads spawned and not yet exited are gathered in one state record. -/

structure DetectorState where
  counter : ℕ
  alarmOn : Bool
  alive : ℕ
deriving DecidableEq, Repr

/-- Startup state: `COUNTER = 0`, `ALARM_ON = False`, no alarm thread. -/
def initState : DetectorState := ⟨0, false, 0⟩

/-- Lines 348-354: `if not ALARM_ON: ALARM_ON = True; ALARM_THREAD = Thread(...);
ALARM_THREAD.start()`.  Spawning one thread is modelled by incrementing
`alive`. -/
def startAlarmGuard (s : DetectorState) : DetectorState :=
  if s.alarmOn then s else { s with alarmOn := true, alive := s.alive + 1 }

/-- Lines 364-366: `if ALARM_ON: ALARM_ON = False`.  The running thread is not
touched; it exits on its own once it observes the flag. -/
def stopAlarmGuard (s : DetectorState) : DetectorState :=
  if s.alarmOn then { s with alarmOn := false } else s

/-- Lines 343-369, the face-detected branch of the frame loop:
if `ear < EYE_THRESHOLD` then `COUNTER += 1` and, when
`COUNTER >= NUM_CONSECUTIVE_FRAMES`, run the alarm-start guard;
otherwise run the alarm-stop guard and set `COUNTER = 0`.
`T` is `EYE_THRESHOLD`, `N` is `NUM_CONSECUTIVE_FRAMES`. -/
def processFaceFrame (T : ℚ) (N : ℕ) (s : DetectorState) (ear : ℚ) : DetectorState :=
  if ear < T then
    let s1 : DetectorState := { s with counter := s.counter + 1 }
    if N ≤ s1.counter then startAlarmGuard s1 else s1
  else
    { stopAlarmGuard s with counter := 0 }

/-- One loop iteration: `none` is the no-face branch (lines 391-394), which
only draws text and touches no state; `some ear` is the face branch. -/
def processFrame (T : ℚ) (N : ℕ) (s : DetectorState) (f : Option ℚ) : DetectorState :=
  match f with
  | none => s
  | some ear => processFaceFrame T N s ear

/-- Run the frame loop over a list of frames. -/
def runFrames (T : ℚ) (N : ℕ) (s : DetectorState) (fs : List (Option ℚ)) : DetectorState :=
  fs.foldl (processFrame T N) s

/-- The EAR values of the face-detected frames, in order. -/
def earsOf (fs : List (Option ℚ)) : List ℚ := fs.filterMap id

/-- Length of the longest suffix of `l` whose entries are all strictly below
`T`. -/
def suffixLow (T : ℚ) (l : List ℚ) : ℕ :=
  (l.reverse.takeWhile (fun e => decide (e < T))).length

/-- One step of the counter viewed on its own: increment below threshold,
reset to zero otherwise. -/
def counterStep (T : ℚ) (c : ℕ) (e : ℚ) : ℕ := if e < T then c + 1 else 0

/-- The state invariant relating `ALARM_ON` and `COUNTER`. -/
def AlarmInv (N : ℕ) (s : DetectorState) : Prop :=
  s.alarmOn = true ↔ N ≤ s.counter

/-- The sequence of states after each frame (startup state excluded). -/
def stateTrace (T : ℚ) (N : ℕ) (fs : List (Option ℚ)) : List DetectorState :=
  (List.scanl (processFrame T N) initState fs).tail

/-- `COUNTER` after each frame. -/
def counterTrace (T : ℚ) (N : ℕ) (fs : List (Option ℚ)) : List ℕ :=
  (stateTrace T N fs).map DetectorState.counter

/-- `ALARM_ON` after each frame. -/
def alarmTrace (T : ℚ) (N : ℕ) (fs : List (Option ℚ)) : List Bool :=
  (stateTrace T N fs).map DetectorState.alarmOn

/-- The EAR sequence of the end-to-end scenario in the specification. -/
def demoSeq : List (Option ℚ) :=
  [some (7/10), some (1/2), some (1/2), some (1/2), some (1/2), some (1/2), some (7/10)]

/-! ## EAR calculator (`calculate_eye_ratio`, lines 231-262)

Landmark coordinates are real numbers; `dist.euclidean` is the Euclidean
distance in the plane. -/

/-- `scipy.spatial.distance.euclidean` on 2D points. -/
noncomputable def euclidean (p q : ℝ × ℝ) : ℝ :=
  Real.sqrt ((p.1 - q.1) ^ 2 + (p.2 - q.2) ^ 2)

/-- Lines 231-262, `calculate_eye_ratio`: extract the six EAR points
`[outer corner, top A, inner corner, bottom A, top B, bottom B]` from the
landmark array, take the two vertical distances `A = dist(coords 1, coords 5)`
and `B = dist(coords 2, coords 4)` and the horizontal distance
`C = dist(coords 0, coords 3)`, and return `(A + B) / (2 * C)` when `C > 0`
and `0` otherwise. -/
noncomputable def calculate_eye_ratio (landmarks : ℕ → ℝ × ℝ)
    (eye_points : Fin 6 → ℕ) : ℝ :=
  let coords : Fin 6 → ℝ × ℝ := fun i => landmarks (eye_points i)
  let A := euclidean (coords 1) (coords 5)
  let B := euclidean (coords 2) (coords 4)
  let C := euclidean (coords 0) (coords 3)
  if 0 < C then (A + B) / (2 * C) else 0

/-- Line 42: the six EAR point indices of the left eye,
`[outer corner, top A, inner corner, bottom A, top B, bottom B]`. -/
def LEFT_EYE_EAR_POINTS : Fin 6 → ℕ := ![33, 159, 133, 145, 158, 153]

/-- Line 43: the six EAR point indices of the right eye. -/
def RIGHT_EYE_EAR_POINTS : Fin 6 → ℕ := ![362, 385, 263, 374, 386, 380]

/-- The failing input for claim C5, with landmark `n` holding point number
`n`.  Under the claim's declared roles the six points
`[outer corner, top A, inner corner, bottom A, top B, bottom B]` are
`[(0,0), (1,0), (1,0), (0,0), (0,0), (0,0)]`: the corner-to-corner distance
`dist(outer, inner)` is `1`. -/
def c5Landmarks : ℕ → ℝ × ℝ :=
  fun n => if n = 1 ∨ n = 2 then ((1 : ℝ), (0 : ℝ)) else ((0 : ℝ), (0 : ℝ))

/-- Point numbers `0..5` in order, as the `eye_points` argument for the C5
failing input. -/
def c5Points : Fin 6 → ℕ := fun i => (i : ℕ)

/-! ## Audio backend selector (`check_audio_library`, lines 46-115)

The probing environment records, for each optional library, whether its
importing would succeed and whether the library would load the configured
alarm file, plus the facts about the host the code consults. -/

structure AudioEnv where
  fileExists : Bool
  pygameImports : Bool
  pygameLoads : Bool
  playsoundImports : Bool
  playsoundLoads : Bool
  pydubImports : Bool
  pydubLoads : Bool
  winsoundImports : Bool
  winsoundLoads : Bool
  isWindows : Bool
  fileIsWav : Bool
deriving DecidableEq, Repr

/-- Lines 60-72: the pygame attempt succeeds when `import pygame`,
`pygame.mixer.init()` and `pygame.mixer.Sound(ALARM_FILE)` all succeed; an
`ImportError` or any other exception falls through to the next mechanism. -/
def pygameAttempt (env : AudioEnv) : Bool := env.pygameImports && env.pygameLoads

/-- Lines 74-84: the playsound attempt succeeds as soon as `import playsound`
succeeds; the code performs no load of the alarm file in this branch. -/
def playsoundAttempt (env : AudioEnv) : Bool := env.playsoundImports

/-- Lines 86-98: the pydub attempt succeeds when the imports and
`AudioSegment.from_file(ALARM_FILE)` succeed. -/
def pydubAttempt (env : AudioEnv) : Bool := env.pydubImports && env.pydubLoads

/-- Lines 100-111: the winsound attempt succeeds when `import winsound`
succeeds, the platform is Windows and the file name ends in `.wav`; no load
of the alarm file is attempted. -/
def winsoundAttempt (env : AudioEnv) : Bool :=
  env.winsoundImports && (env.isWindows && env.fileIsWav)

/-- Lines 46-115, `check_audio_library`, as a function of the probing
environment and of the value of the global `AUDIO_LIBRARY` before the call;
the result is the pair (return value, value of `AUDIO_LIBRARY` after the
call).  The global is written only in the four success branches. -/
def check_audio_library (env : AudioEnv) (lib0 : Option String) :
    Option String × Option String :=
  if !env.fileExists then (none, lib0)
  else if pygameAttempt env then (some "pygame", some "pygame")
  else if playsoundAttempt env then (some "playsound", some "playsound")
  else if pydubAttempt env then (some "pydub", some "pydub")
  else if winsoundAttempt env then (some "winsound", some "winsound")
  else (none, lib0)

/-- The selector as worded by claim C6 and section 4.2 of the specification:
every mechanism attempts to load the alarm resource, and the first mechanism
that loads it wins; if the file is missing or every mechanism fails to load
it, the result is `None`.  Stated only to be compared with
`check_audio_library`. -/
def check_audio_library_claimed (env : AudioEnv) : Option String :=
  if !env.fileExists then none
  else if env.pygameImports && env.pygameLoads then some "pygame"
  else if env.playsoundImports && env.playsoundLoads then some "playsound"
  else if env.pydubImports && env.pydubLoads then some "pydub"
  else if env.winsoundImports && env.winsoundLoads then some "winsound"
  else none

/-- The environment exhibiting the divergence for claim C6: the alarm file
exists, `import playsound` succeeds, but no library (playsound included)
can load the file. -/
def c6Env : AudioEnv :=
  { fileExists := true
    pygameImports := false
    pygameLoads := false
    playsoundImports := true
    playsoundLoads := false
    pydubImports := false
    pydubLoads := false
    winsoundImports := false
    winsoundLoads := false
    isWindows := false
    fileIsWav := true }

/-! ## Alarm driver (`play_audio_file` lines 118-158,
`trigger_continuous_alarm` lines 161-229)

Python exceptions are embedded as `Except.error`; every sleep duration is in
milliseconds. -/

/-- Which mechanism produced the alert in one alarm-loop iteration. -/
inductive AlarmAction where
  | filePlayback
  | sysBeep
  | terminalBell
  | shellCommand
  | visualAlert
deriving DecidableEq, Repr

/-- Environment of `play_audio_file`: the selected backend (the global
`AUDIO_LIBRARY`), whether each library call would raise, how many 0.1 s
busy-wait sleeps the pygame branch performs, and the audio file duration in
milliseconds for the blocking pydub `play`. -/
structure PlayEnv where
  audioLib : Option String
  pygameRaises : Bool
  pygameBusyTicks : ℕ
  playsoundRaises : Bool
  pydubRaises : Bool
  pydubMillis : ℕ
  winsoundRaises : Bool
deriving DecidableEq, Repr

/-- The `try` block of `play_audio_file` (lines 124-154): `.error` is a raised
exception, `.ok (some b)` an early `return b`, `.ok none` falling off the end
of the block (which happens when `AUDIO_LIBRARY` matches none of the four
names). -/
def play_audio_file_try (env : PlayEnv) : Except Unit (Option Bool) :=
  if env.audioLib = some "pygame" then
    if env.pygameRaises then .error () else .ok (some true)
  else if env.audioLib = some "playsound" then
    if env.playsoundRaises then .error () else .ok (some true)
  else if env.audioLib = some "pydub" then
    if env.pydubRaises then .error () else .ok (some true)
  else if env.audioLib = some "winsound" then
    if env.winsoundRaises then .error () else .ok (some true)
  else .ok none

/-- Lines 118-158, `play_audio_file`, `except Exception` included: a caught
exception prints and reaches the final `return False`, as does falling off
the end of the `try` block.  The function as a whole never raises. -/
def play_audio_file (env : PlayEnv) : Except Unit Bool :=
  match play_audio_file_try env with
  | .error _ => .ok false
  | .ok (some b) => .ok b
  | .ok none => .ok false

/-- The boolean value `play_audio_file` evaluates to at its call site on
line 171. -/
def play_audio_file_result (env : PlayEnv) : Bool :=
  match play_audio_file env with
  | .ok b => b
  | .error _ => false

/-- Environment of one `trigger_continuous_alarm` loop iteration: the
playback environment, whether each fallback mechanism would raise, and the
runtime in milliseconds of the blocking `subprocess.run` call of the
shell-command fallback (`speaker-test` up to its 1 s timeout, or macOS `say`
for the length of its utterance). -/
structure TriggerEnv where
  penv : PlayEnv
  winsoundImports : Bool
  beepRaises : Bool
  bellRaises : Bool
  shellRaises : Bool
  shellMillis : ℕ
deriving DecidableEq, Repr

/-- Line 171: `if AUDIO_LIBRARY and play_audio_file():` — external-file
playback is taken when a backend was selected and `play_audio_file` returns
`True`. -/
def filePlaybackTaken (env : TriggerEnv) : Bool :=
  env.penv.audioLib.isSome && play_audio_file_result env.penv

/-- `except` semantics: if `body` raises, run `handler` instead. -/
def tryExcept {α : Type} (body : Except Unit α) (handler : Except Unit α) :
    Except Unit α :=
  match body with
  | .ok a => .ok a
  | .error _ => handler

/-- Lines 169-228: the body of one iteration of the `while ALARM_ON` loop of
`trigger_continuous_alarm`, entered with the flag set.  Each fallback method
sits in its own `try/except` whose handler falls through to the next method
(`ImportError` and other exceptions alike); the final visual alert is
unconditional. -/
def trigger_iteration (env : TriggerEnv) : Except Unit AlarmAction :=
  if filePlaybackTaken env then .ok .filePlayback
  else
    tryExcept
      (if env.winsoundImports then
        if env.beepRaises then .error () else .ok AlarmAction.sysBeep
       else .error ())
      (tryExcept
        (if env.bellRaises then .error () else .ok AlarmAction.terminalBell)
        (tryExcept
          (if env.shellRaises then .error () else .ok AlarmAction.shellCommand)
          (.ok AlarmAction.visualAlert)))

/-- The fallback policy as worded by the specification: strict priority order
file playback, OS tone beep, terminal bell, shell command, visual alert; the
first available mechanism is used and the visual alert cannot fail. -/
def fallback_priority (env : TriggerEnv) : AlarmAction :=
  if filePlaybackTaken env then .filePlayback
  else if env.winsoundImports && !env.beepRaises then .sysBeep
  else if !env.bellRaises then .terminalBell
  else if !env.shellRaises then .shellCommand
  else .visualAlert

/-- The uninterrupted blocking stretches (in milliseconds) of one alarm-loop
iteration, each stretch ending at the next point where the code consults
`ALARM_ON` (either a loop condition or an explicit `if`).  From the source:

* pygame file playback (lines 125-134): every busy-wait sleep is 100 ms and
  the busy-loop condition re-reads `ALARM_ON`; once the mixer goes idle the
  function returns and the loop sleeps 500 ms (line 173) before the `while`
  condition is checked again, an uninterrupted stretch of at most 600 ms;
* playsound (lines 136-140) and winsound (lines 149-153) file playback:
  asynchronous start, `time.sleep(1)`, then the 500 ms of line 173 — 1500 ms
  with no check in between;
* pydub file playback (lines 142-147): `play(audio)` blocks for the whole
  audio file, then the 500 ms of line 173;
* `winsound.Beep(1000, 200)` plus `time.sleep(0.3)` (lines 180-182): 500 ms;
* terminal bell (lines 192-199): three 100 ms sleeps with `ALARM_ON` checked
  between bells, then 500 ms after the last bell — stretches 100, 100, 600;
* shell command (lines 204-221): after the `if ALARM_ON` of line 210, the
  blocking `subprocess.run` call (its runtime is `shellMillis`) followed by
  `time.sleep(1)` with no check in between — `shellMillis + 1000` ms;
* visual alert (lines 226-228): `time.sleep(1)` — 1000 ms. -/
def iterationBlocks (env : TriggerEnv) : List ℕ :=
  if filePlaybackTaken env then
    if env.penv.audioLib = some "pygame" then
      List.replicate env.penv.pygameBusyTicks 100 ++ [600]
    else if env.penv.audioLib = some "pydub" then
      [env.penv.pydubMillis + 500]
    else
      [1500]
  else
    match fallback_priority env with
    | .filePlayback => []
    | .sysBeep => [500]
    | .terminalBell => [100, 100, 600]
    | .shellCommand => [env.shellMillis + 1000]
    | .visualAlert => [1000]

/-- The longest stretch (in milliseconds) an alarm-loop iteration goes
without consulting `ALARM_ON`: once the flag is cleared, the background task
observes it and exits within this bound. -/
def maxBlock (env : TriggerEnv) : ℕ :=
  (iterationBlocks env).foldr max 0

/-- The environment exhibiting the divergence for claim C8: pydub plays a
one-hour audio file. -/
def c8Env : TriggerEnv :=
  { penv :=
    { audioLib := some "pydub"
      pygameRaises := false
      pygameBusyTicks := 0
      playsoundRaises := false
      pydubRaises := false
      pydubMillis := 3600000
      winsoundRaises := false }
    winsoundImports := false
    beepRaises := false
    bellRaises := false
    shellRaises := false
    shellMillis := 0 }

/-! # Theorems -/

/-! ## Counter lemmas -/

theorem counter_processFrame (T : ℚ) (N : ℕ) (s : DetectorState) (f : Option ℚ) :
    (processFrame T N s f).counter =
      match f with
      | none => s.counter
      | some e => counterStep T s.counter e := by
  cases f with
  | none => rfl
  | some e =>
    simp only [processFrame, processFaceFrame, counterStep, startAlarmGuard]
    by_cases he : e < T
    · simp only [he, if_true]
      by_cases hN : N ≤ s.counter + 1 <;> by_cases hA : s.alarmOn <;> simp [hN, hA]
    · simp [he]

theorem counter_runFrames (T : ℚ) (N : ℕ) (s : DetectorState) (fs : List (Option ℚ)) :
    (runFrames T N s fs).counter = (earsOf fs).foldl (counterStep T) s.counter := by
  induction fs generalizing s with
  | nil => rfl
  | cons f fs ih =>
    cases f with
    | none =>
      show (runFrames T N s fs).counter = (earsOf fs).foldl (counterStep T) s.counter
      exact ih s
    | some e =>
      show (runFrames T N (processFaceFrame T N s e) fs).counter
          = (earsOf fs).foldl (counterStep T) (counterStep T s.counter e)
      have h : (processFaceFrame T N s e).counter = counterStep T s.counter e :=
        counter_processFrame T N s (some e)
      rw [ih (processFaceFrame T N s e), h]

theorem takeWhile_append_all {α : Type} (p : α → Bool) (l₁ l₂ : List α)
    (h : ∀ x ∈ l₁, p x = true) :
    (l₁ ++ l₂).takeWhile p = l₁ ++ l₂.takeWhile p := by
  induction l₁ with
  | nil => simp
  | cons a l ih =>
    have ha : p a = true := h a (List.mem_cons_self a l)
    simp only [List.cons_append, List.takeWhile_cons, ha, if_true]
    rw [ih (fun x hx => h x (List.mem_cons_of_mem a hx))]

theorem takeWhile_append_stop {α : Type} (p : α → Bool) (l₁ l₂ : List α)
    (h : ¬ ∀ x ∈ l₁, p x = true) :
    (l₁ ++ l₂).takeWhile p = l₁.takeWhile p := by
  induction l₁ with
  | nil => exact absurd (by simp) h
  | cons a l ih =>
    by_cases ha : p a = true
    · simp only [List.cons_append, List.takeWhile_cons, ha, if_true]
      have hl : ¬ ∀ x ∈ l, p x = true := by
        intro hall
        exact h (fun x hx => by
          rcases List.mem_cons.mp hx with rfl | hx
          · exact ha
          · exact hall x hx)
      rw [ih hl]
    · simp only [List.cons_append, List.takeWhile_cons]
      rw [if_neg ha, if_neg ha]

theorem suffixLow_cons_not_all (T e : ℚ) (l : List ℚ) (hl : ¬ ∀ x ∈ l, x < T) :
    suffixLow T (e :: l) = suffixLow T l := by
  have hrev : ¬ ∀ x ∈ l.reverse, (fun a => decide (a < T)) x = true := by
    intro hall
    exact hl (fun x hx => of_decide_eq_true (hall x (List.mem_reverse.mpr hx)))
  simp only [suffixLow, List.reverse_cons]
  rw [takeWhile_append_stop _ _ _ hrev]

theorem suffixLow_cons_all (T e : ℚ) (l : List ℚ) (hl : ∀ x ∈ l, x < T) :
    suffixLow T (e :: l) = if e < T then l.length + 1 else l.length := by
  have hrev : ∀ x ∈ l.reverse, (fun a => decide (a < T)) x = true := by
    intro x hx
    exact decide_eq_true (hl x (List.mem_reverse.mp hx))
  simp only [suffixLow, List.reverse_cons]
  rw [takeWhile_append_all _ _ _ hrev]
  by_cases he : e < T
  · rw [if_pos he]
    simp [List.takeWhile_cons, he]
  · rw [if_neg he]
    simp [List.takeWhile_cons, he]

theorem foldl_counterStep_eq (T : ℚ) (l : List ℚ) (c : ℕ) :
    l.foldl (counterStep T) c =
      if ∀ e ∈ l, e < T then c + l.length else suffixLow T l := by
  induction l generalizing c with
  | nil => simp [suffixLow]
  | cons e l ih =>
    rw [List.foldl_cons, ih (counterStep T c e)]
    by_cases he : e < T
    · by_cases hl : ∀ x ∈ l, x < T
      · have hall : ∀ x ∈ e :: l, x < T := by
          intro x hx
          rcases List.mem_cons.mp hx with rfl | hx
          · exact he
          · exact hl x hx
        rw [if_pos hl, if_pos hall, counterStep, if_pos he, List.length_cons]
        omega
      · have hnall : ¬ ∀ x ∈ e :: l, x < T := by
          intro hall
          exact hl (fun x hx => hall x (List.mem_cons_of_mem e hx))
        rw [if_neg hl, if_neg hnall, suffixLow_cons_not_all T e l hl]
    · have hnall : ¬ ∀ x ∈ e :: l, x < T := by
        intro hall
        exact he (hall e (List.mem_cons_self e l))
      rw [if_neg hnall]
      by_cases hl : ∀ x ∈ l, x < T
      · rw [if_pos hl, suffixLow_cons_all T e l hl, if_neg he, counterStep, if_neg he,
          Nat.zero_add]
      · rw [if_neg hl, suffixLow_cons_not_all T e l hl]

/-- The counter after any run equals the length of the longest all-below
suffix of the processed EAR values. -/
theorem counter_eq_suffixLow (T : ℚ) (N : ℕ) (fs : List (Option ℚ)) :
    (runFrames T N initState fs).counter = suffixLow T (earsOf fs) := by
  rw [counter_runFrames, foldl_counterStep_eq]
  by_cases h : ∀ e ∈ earsOf fs, e < T
  · rw [if_pos h]
    show 0 + (earsOf fs).length = _
    rw [Nat.zero_add]
    simp only [suffixLow]
    rw [List.takeWhile_eq_self_iff.mpr, List.length_reverse]
    intro x hx
    exact decide_eq_true (h x (List.mem_reverse.mp hx))
  · rw [if_neg h]

/-! ## Alarm-flag invariant -/

theorem alarmInv_init (N : ℕ) (hN : 1 ≤ N) : AlarmInv N initState := by
  unfold AlarmInv
  constructor
  · intro h
    exact absurd h (by decide)
  · intro h
    have h0 : N ≤ 0 := by simpa [initState] using h
    exact absurd h0 (by omega)

theorem alarmInv_step (T : ℚ) (N : ℕ) (hN : 1 ≤ N) (s : DetectorState)
    (hs : AlarmInv N s) (f : Option ℚ) : AlarmInv N (processFrame T N s f) := by
  cases f with
  | none => exact hs
  | some e =>
    show AlarmInv N (processFaceFrame T N s e)
    unfold processFaceFrame
    by_cases he : e < T
    · rw [if_pos he]
      by_cases hc : N ≤ s.counter + 1
      · rw [if_pos hc]
        unfold startAlarmGuard AlarmInv
        by_cases hA : s.alarmOn <;> simp [hA, hc]
      · rw [if_neg hc]
        unfold AlarmInv at hs
        show s.alarmOn = true ↔ N ≤ s.counter + 1
        constructor
        · intro h
          exact absurd (Nat.le_succ_of_le (hs.mp h)) hc
        · intro h
          exact absurd h hc
    · rw [if_neg he]
      unfold stopAlarmGuard AlarmInv
      by_cases hA : s.alarmOn <;> simp [hA] <;> omega

theorem alarmInv_run (T : ℚ) (N : ℕ) (hN : 1 ≤ N) (fs : List (Option ℚ)) :
    AlarmInv N (runFrames T N initState fs) := by
  suffices h : ∀ s, AlarmInv N s → AlarmInv N (runFrames T N s fs) from
    h initState (alarmInv_init N hN)
  induction fs with
  | nil => exact fun s hs => hs
  | cons f fs ih =>
    intro s hs
    exact ih (processFrame T N s f) (alarmInv_step T N hN s hs f)

/-! ## Rational literals in kernel-computable form -/

/-- `demoSeq` with its rationals in kernel-computable `mkRat` form. -/
theorem demoSeq_eq :
    demoSeq = [some (mkRat 7 10), some (mkRat 1 2), some (mkRat 1 2), some (mkRat 1 2),
      some (mkRat 1 2), some (mkRat 1 2), some (mkRat 7 10)] := by
  norm_num [demoSeq, Rat.mkRat_eq_div]

theorem threshold_eq : (68/100 : ℚ) = mkRat 68 100 := by
  norm_num [Rat.mkRat_eq_div]

theorem half_eq : (1/2 : ℚ) = mkRat 1 2 := by
  norm_num [Rat.mkRat_eq_div]

/-- A face frame turns the alarm from off to on exactly when it moves the
counter to exactly `N`. -/
theorem becomesActive_iff (T : ℚ) (N : ℕ) (hN : 1 ≤ N) (s : DetectorState)
    (hs : AlarmInv N s) (e : ℚ) :
    ((processFrame T N s (some e)).alarmOn = true ∧ s.alarmOn = false) ↔
      (processFrame T N s (some e)).counter = N := by
  have hs2 : AlarmInv N (processFrame T N s (some e)) := alarmInv_step T N hN s hs (some e)
  have hcnt : (processFrame T N s (some e)).counter = counterStep T s.counter e :=
    counter_processFrame T N s (some e)
  unfold AlarmInv at hs hs2
  rw [hcnt] at hs2 ⊢
  unfold counterStep at hs2 ⊢
  constructor
  · rintro ⟨h1, h2⟩
    have hn2 := hs2.mp h1
    have hn1 : ¬ N ≤ s.counter := by
      intro hh
      rw [hs.mpr hh] at h2
      cases h2
    by_cases he : e < T
    · rw [if_pos he] at hn2 ⊢
      omega
    · rw [if_neg he] at hn2
      exact absurd hn2 (by omega)
  · intro h
    refine ⟨hs2.mpr (le_of_eq h.symm), ?_⟩
    by_cases he : e < T
    · rw [if_pos he] at h
      by_cases hA : s.alarmOn = true
      · exact absurd (hs.mp hA) (by omega)
      · exact Bool.eq_false_iff.mpr hA
    · rw [if_neg he] at h
      exact absurd h (by omega)

/-! ## Claim theorems for the state machine -/

/-- Claim C1: after processing frame `i`, `COUNTER` equals the length of the
longest suffix of face-detected frames with EAR strictly below the threshold
ending at `i`; a frame with EAR at or above the threshold resets it to `0`
regardless of alarm state, and no-face frames are excluded from the EAR
sequence entirely. -/
theorem C1_counter_is_longest_low_suffix (T : ℚ) (N : ℕ) (fs : List (Option ℚ)) :
    (runFrames T N initState fs).counter = suffixLow T (earsOf fs) :=
  counter_eq_suffixLow T N fs

/-- Claim C2: after every processed frame, `ALARM_ON` is true exactly when the
counter has reached `N` with no at-or-above-threshold frame processed since,
i.e. exactly when the current run of consecutive below-threshold face frames
has length at least `N`. -/
theorem C2_alarm_iff_counter_reached (T : ℚ) (N : ℕ) (fs : List (Option ℚ))
    (hN : 1 ≤ N) :
    (runFrames T N initState fs).alarmOn = true ↔
      N ≤ suffixLow T (earsOf fs) := by
  have h := alarmInv_run T N hN fs
  unfold AlarmInv at h
  rw [counter_eq_suffixLow T N fs] at h
  exact h

/-- Witness for C2 at the scenario threshold `0.68`, `N = 5`, on `demoSeq`
truncated after the fifth low frame: the alarm is on there, and indeed the
current low run has length `5`. -/
theorem C2_alarm_iff_counter_reached_witness :
    (runFrames (68/100) 5 initState (demoSeq.take 6)).alarmOn = true := by
  rw [C2_alarm_iff_counter_reached (68/100) 5 (demoSeq.take 6) (by decide)]
  rw [threshold_eq, demoSeq_eq]
  decide

/-- Claim C3: the alarm becomes active exactly on the frame where the
consecutive-low counter first reaches `N` (not before, not on a later frame
without re-arming), and concretely, with threshold `0.68` and `N = 5`, the EAR
sequence `[0.7, 0.5, 0.5, 0.5, 0.5, 0.5, 0.7]` produces the counter trace
`[0, 1, 2, 3, 4, 5, 0]`, with the alarm active exactly after the fifth low
value (index 5) and inactive again after the final `0.7`. -/
theorem C3_alarm_on_first_reach (T : ℚ) (N : ℕ) (fs : List (Option ℚ)) (e : ℚ)
    (hN : 1 ≤ N) :
    (((runFrames T N initState (fs ++ [some e])).alarmOn = true ∧
        (runFrames T N initState fs).alarmOn = false) ↔
      (runFrames T N initState (fs ++ [some e])).counter = N) ∧
    counterTrace (68/100) 5 demoSeq = [0, 1, 2, 3, 4, 5, 0] ∧
    alarmTrace (68/100) 5 demoSeq = [false, false, false, false, false, true, false] := by
  refine ⟨?_, ?_, ?_⟩
  · have hsplit : runFrames T N initState (fs ++ [some e]) =
        processFrame T N (runFrames T N initState fs) (some e) := by
      unfold runFrames
      rw [List.foldl_append, List.foldl_cons, List.foldl_nil]
    rw [hsplit]
    exact becomesActive_iff T N hN (runFrames T N initState fs)
      (alarmInv_run T N hN fs) e
  · rw [threshold_eq, demoSeq_eq]
    decide
  · rw [threshold_eq, demoSeq_eq]
    decide

/-- Witness for C3: in the scenario the alarm is off after the first five
frames and on after the sixth, whose processing brings the counter to `5`. -/
theorem C3_alarm_on_first_reach_witness :
    (runFrames (68/100) 5 initState (demoSeq.take 5 ++ [some (1/2)])).alarmOn = true ∧
    (runFrames (68/100) 5 initState (demoSeq.take 5)).alarmOn = false := by
  have h := C3_alarm_on_first_reach (68/100) 5 (demoSeq.take 5) (1/2) (by decide)
  refine h.1.mpr ?_
  rw [threshold_eq, demoSeq_eq, half_eq]
  decide

/-- Claim C7: the alarm-start guard is idempotent: a start request while the
alarm is already active spawns no new background task, so two consecutive
start requests from the idle state leave exactly one alarm task alive; a stop
request while idle is likewise a no-op. -/
theorem C7_start_idempotent_stop_noop (s : DetectorState)
    (hIdle : s.alarmOn = false) (hNoTask : s.alive = 0) :
    startAlarmGuard (startAlarmGuard s) = startAlarmGuard s ∧
    (startAlarmGuard (startAlarmGuard s)).alive = 1 ∧
    stopAlarmGuard s = s := by
  unfold startAlarmGuard stopAlarmGuard
  simp [hIdle, hNoTask]

/-- Witness for C7 at the startup state. -/
theorem C7_start_idempotent_stop_noop_witness :
    startAlarmGuard (startAlarmGuard initState) = startAlarmGuard initState ∧
    (startAlarmGuard (startAlarmGuard initState)).alive = 1 ∧
    stopAlarmGuard initState = initState :=
  C7_start_idempotent_stop_noop initState rfl rfl

/-- Claim C4: a no-face frame is a no-op for the state machine: the counter is
neither incremented nor reset, and the alarm flag is unchanged, so an alarm
active before the no-face frame is still active after it. -/
theorem C4_no_face_is_noop (T : ℚ) (N : ℕ) (s : DetectorState) :
    processFrame T N s none = s ∧
    (processFrame T N s none).counter = s.counter ∧
    (processFrame T N s none).alarmOn = s.alarmOn :=
  ⟨rfl, rfl, rfl⟩

/-! ## EAR calculator -/

/-- What `calculate_eye_ratio` actually computes: it pairs the extracted
coordinates as `(1,5)`, `(2,4)` for the numerator and `(0,3)` for the
denominator and guard — the dlib point-order pairing, not the pairing its
own comments describe for the declared point format; the guard returns `0`
and the result is always non-negative. -/
theorem calculate_eye_ratio_cases (landmarks : ℕ → ℝ × ℝ)
    (eye_points : Fin 6 → ℕ) :
    (0 < euclidean (landmarks (eye_points 0)) (landmarks (eye_points 3)) →
      calculate_eye_ratio landmarks eye_points =
        (euclidean (landmarks (eye_points 1)) (landmarks (eye_points 5)) +
          euclidean (landmarks (eye_points 2)) (landmarks (eye_points 4))) /
          (2 * euclidean (landmarks (eye_points 0)) (landmarks (eye_points 3)))) ∧
    (euclidean (landmarks (eye_points 0)) (landmarks (eye_points 3)) = 0 →
      calculate_eye_ratio landmarks eye_points = 0) ∧
    0 ≤ calculate_eye_ratio landmarks eye_points := by
  unfold calculate_eye_ratio
  refine ⟨?_, ?_, ?_⟩
  · intro hC
    rw [if_pos hC]
  · intro hC
    rw [if_neg (by rw [hC]; exact lt_irrefl 0)]
  · by_cases hC : 0 < euclidean (landmarks (eye_points 0)) (landmarks (eye_points 3))
    · rw [if_pos hC]
      apply div_nonneg
      · exact add_nonneg (Real.sqrt_nonneg _) (Real.sqrt_nonneg _)
      · positivity
    · rw [if_neg hC]

/-- Claim C5, failing input: under the claim's declared point order
`[outer corner, top A, inner corner, bottom A, top B, bottom B]` the claim's
formula is `(dist(topA, bottomA) + dist(topB, bottomB)) / (2 * dist(outer,
inner))` with the guard on the corner-to-corner distance.  At `c5Landmarks`
the corner-to-corner distance is `1 > 0` and the claim's formula evaluates to
`1/2`, but the code pairs the coordinates as `(1,5)`, `(2,4)`, `(0,3)` —
its guard distance `dist(coords 0, coords 3)` is `0` here — and returns `0`.
This contradicts the source's own comments (`top-bottom 1`, `top-bottom 2`,
`outer corner - inner corner`, lines 250-254) under the declared point format
of line 41, so the claim is right and the code mispairs the indices. -/
theorem C5_code_mispairs_indices :
    0 < euclidean (c5Landmarks (c5Points 0)) (c5Landmarks (c5Points 2)) ∧
    (euclidean (c5Landmarks (c5Points 1)) (c5Landmarks (c5Points 3)) +
        euclidean (c5Landmarks (c5Points 4)) (c5Landmarks (c5Points 5))) /
      (2 * euclidean (c5Landmarks (c5Points 0)) (c5Landmarks (c5Points 2))) = 1/2 ∧
    calculate_eye_ratio c5Landmarks c5Points = 0 := by
  have e0 : c5Landmarks (c5Points 0) = ((0 : ℝ), (0 : ℝ)) := rfl
  have e1 : c5Landmarks (c5Points 1) = ((1 : ℝ), (0 : ℝ)) := rfl
  have e2 : c5Landmarks (c5Points 2) = ((1 : ℝ), (0 : ℝ)) := rfl
  have e3 : c5Landmarks (c5Points 3) = ((0 : ℝ), (0 : ℝ)) := rfl
  have e4 : c5Landmarks (c5Points 4) = ((0 : ℝ), (0 : ℝ)) := rfl
  have e5 : c5Landmarks (c5Points 5) = ((0 : ℝ), (0 : ℝ)) := rfl
  have h00 : euclidean ((0 : ℝ), (0 : ℝ)) ((0 : ℝ), (0 : ℝ)) = 0 := by
    simp [euclidean]
  have h01 : euclidean ((0 : ℝ), (0 : ℝ)) ((1 : ℝ), (0 : ℝ)) = 1 := by
    unfold euclidean
    norm_num
  have h10 : euclidean ((1 : ℝ), (0 : ℝ)) ((0 : ℝ), (0 : ℝ)) = 1 := by
    unfold euclidean
    norm_num
  refine ⟨?_, ?_, ?_⟩
  · rw [e0, e2, h01]
    norm_num
  · rw [e0, e1, e2, e3, e4, e5, h01, h10, h00]
    norm_num
  · refine (calculate_eye_ratio_cases c5Landmarks c5Points).2.1 ?_
    rw [e0, e3, h00]

/-! ## Audio backend selection -/

/-- Counterexample to claim C6 as stated: in `c6Env` the alarm file exists
and no mechanism can load it (in particular `playsound` cannot), so the claim
says the selected backend is `None`; but because the code's playsound branch
only imports the library and never attempts a load, `check_audio_library`
selects `"playsound"`. -/
theorem C6_counterexample :
    c6Env.fileExists = true ∧
    c6Env.pygameLoads = false ∧
    c6Env.playsoundLoads = false ∧
    c6Env.pydubLoads = false ∧
    c6Env.winsoundLoads = false ∧
    check_audio_library_claimed c6Env = none ∧
    (check_audio_library c6Env none).1 = some "playsound" := by
  refine ⟨rfl, rfl, rfl, rfl, rfl, ?_, ?_⟩ <;> decide

/-- Claim C6, amended: `check_audio_library` tries pygame, playsound, pydub,
winsound in that order; the pygame and pydub attempts succeed only when they
load the alarm file, the playsound attempt succeeds on a successful import
alone (no load is attempted), and the winsound attempt succeeds on a
successful import when the platform is Windows and the file name ends in
`.wav`; the first success is recorded as the active backend; if the alarm
file does not exist or all four attempts fail, the selected backend is `None`
and the alarm loop then uses only the built-in fallback mechanisms, never
external-file playback. -/
theorem C6_backend_selection_amended (env : AudioEnv) (lib0 : Option String) :
    ((check_audio_library env lib0).1 = none ↔
      env.fileExists = false ∨
        (pygameAttempt env = false ∧ playsoundAttempt env = false ∧
          pydubAttempt env = false ∧ winsoundAttempt env = false)) ∧
    (env.fileExists = true → pygameAttempt env = true →
      (check_audio_library env lib0).1 = some "pygame") ∧
    (env.fileExists = true → pygameAttempt env = false → playsoundAttempt env = true →
      (check_audio_library env lib0).1 = some "playsound") ∧
    (env.fileExists = true → pygameAttempt env = false → playsoundAttempt env = false →
      pydubAttempt env = true → (check_audio_library env lib0).1 = some "pydub") ∧
    (env.fileExists = true → pygameAttempt env = false → playsoundAttempt env = false →
      pydubAttempt env = false → winsoundAttempt env = true →
      (check_audio_library env lib0).1 = some "winsound") ∧
    (∀ tenv : TriggerEnv, tenv.penv.audioLib = none →
      trigger_iteration tenv ≠ Except.ok AlarmAction.filePlayback) := by
  refine ⟨?_, ?_, ?_, ?_, ?_, ?_⟩
  · unfold check_audio_library
    by_cases h1 : env.fileExists <;> by_cases h2 : pygameAttempt env <;>
      by_cases h3 : playsoundAttempt env <;> by_cases h4 : pydubAttempt env <;>
      by_cases h5 : winsoundAttempt env <;> simp [h1, h2, h3, h4, h5]
  · intro h1 h2
    unfold check_audio_library
    simp [h1, h2]
  · intro h1 h2 h3
    unfold check_audio_library
    simp [h1, h2, h3]
  · intro h1 h2 h3 h4
    unfold check_audio_library
    simp [h1, h2, h3, h4]
  · intro h1 h2 h3 h4 h5
    unfold check_audio_library
    simp [h1, h2, h3, h4, h5]
  · intro tenv h
    have hf : filePlaybackTaken tenv = false := by
      unfold filePlaybackTaken
      rw [h]
      rfl
    unfold trigger_iteration
    rw [hf]
    by_cases h1 : tenv.winsoundImports <;> by_cases h2 : tenv.beepRaises <;>
      by_cases h3 : tenv.bellRaises <;> by_cases h4 : tenv.shellRaises <;>
      simp [tryExcept, h1, h2, h3, h4]

/-- Witness for C6 (amended) at `c6Env`: pygame fails, playsound imports, so
playsound is selected. -/
theorem C6_backend_selection_amended_witness :
    (check_audio_library c6Env none).1 = some "playsound" :=
  (C6_backend_selection_amended c6Env none).2.2.1 rfl (by decide) (by decide)

/-- Claim C10: when `check_audio_library` is called with the global
`AUDIO_LIBRARY` still `None` (as at startup), the global after the call
equals the function's return value: the name of the selected library on
success, `None` when the file is missing or no library attempt succeeds. -/
theorem C10_global_equals_return (env : AudioEnv) :
    (check_audio_library env none).2 = (check_audio_library env none).1 := by
  unfold check_audio_library
  by_cases h1 : env.fileExists <;> by_cases h2 : pygameAttempt env <;>
    by_cases h3 : playsoundAttempt env <;> by_cases h4 : pydubAttempt env <;>
    by_cases h5 : winsoundAttempt env <;> simp [h1, h2, h3, h4, h5]

/-! ## Alarm driver -/

/-- Claim C9: `play_audio_file` never lets an exception escape — it returns a
boolean (`False` on any caught error) — and one alarm-loop iteration never
raises either: its exception-driven fallback structure computes exactly the
strict priority order file playback, OS tone beep, terminal bell, shell
command, visual alert. -/
theorem C9_errors_never_propagate (env : TriggerEnv) :
    play_audio_file env.penv = Except.ok (play_audio_file_result env.penv) ∧
    trigger_iteration env = Except.ok (fallback_priority env) := by
  constructor
  · unfold play_audio_file_result play_audio_file
    cases play_audio_file_try env.penv with
    | error e => rfl
    | ok ob => cases ob <;> rfl
  · by_cases hf : filePlaybackTaken env <;>
      by_cases h1 : env.winsoundImports <;> by_cases h2 : env.beepRaises <;>
      by_cases h3 : env.bellRaises <;> by_cases h4 : env.shellRaises <;>
      simp [trigger_iteration, fallback_priority, tryExcept, hf, h1, h2, h3, h4]

theorem foldr_max_replicate_le (k a b c : ℕ) (ha : a ≤ c) (hb : b ≤ c) :
    (List.replicate k a ++ [b]).foldr max 0 ≤ c := by
  induction k with
  | zero => simpa using hb
  | succ k ih =>
    rw [List.replicate_succ, List.cons_append, List.foldr_cons]
    exact max_le ha ih

/-- Counterexample to claim C8 as stated: with the pydub backend playing a
one-hour audio file, an alarm-loop iteration blocks for 3600500 ms without
consulting `ALARM_ON` — not a small bounded sleep of hundreds of
milliseconds, and the stop signal is not observed within one such interval. -/
theorem C8_counterexample :
    maxBlock c8Env = 3600500 ∧ ¬ maxBlock c8Env ≤ 1000 := by
  constructor <;> decide

/-- Claim C8, amended: in every alarm-loop iteration that neither plays the
file through pydub nor lands on the shell-command fallback, the task goes at
most 1500 ms (one bounded sleep interval) without consulting `ALARM_ON`, so
it observes a cleared flag and exits within that bound; an iteration that
plays the file through pydub blocks for the full duration of the audio plus
500 ms before the flag is consulted again, and a shell-command fallback
iteration blocks for the spawned command's runtime plus 1000 ms. -/
theorem C8_stop_responsiveness_amended (env : TriggerEnv) :
    (¬ (filePlaybackTaken env = true ∧ env.penv.audioLib = some "pydub") →
      fallback_priority env ≠ AlarmAction.shellCommand →
      maxBlock env ≤ 1500) ∧
    (filePlaybackTaken env = true ∧ env.penv.audioLib = some "pydub" →
      maxBlock env = env.penv.pydubMillis + 500) ∧
    (fallback_priority env = AlarmAction.shellCommand →
      maxBlock env = env.shellMillis + 1000) := by
  refine ⟨?_, ?_, ?_⟩
  · intro hnot hshell
    unfold maxBlock iterationBlocks
    by_cases hf : filePlaybackTaken env = true
    · rw [if_pos hf]
      by_cases hpg : env.penv.audioLib = some "pygame"
      · rw [if_pos hpg]
        exact foldr_max_replicate_le _ 100 600 1500 (by omega) (by omega)
      · rw [if_neg hpg]
        by_cases hpd : env.penv.audioLib = some "pydub"
        · exact absurd ⟨hf, hpd⟩ hnot
        · rw [if_neg hpd]
          decide
    · rw [if_neg hf]
      cases hfb : fallback_priority env with
      | filePlayback => simp
      | sysBeep => simp
      | terminalBell => simp
      | shellCommand => exact absurd hfb hshell
      | visualAlert => simp
  · rintro ⟨hf, hpd⟩
    unfold maxBlock iterationBlocks
    rw [if_pos hf]
    have hpg : ¬ env.penv.audioLib = some "pygame" := by
      rw [hpd]
      decide
    rw [if_neg hpg, if_pos hpd, List.foldr_cons, List.foldr_nil, Nat.max_zero]
  · intro hshell
    have hf : ¬ filePlaybackTaken env = true := by
      intro hf
      unfold fallback_priority at hshell
      rw [if_pos hf] at hshell
      simp at hshell
    unfold maxBlock iterationBlocks
    rw [if_neg hf, hshell, List.foldr_cons, List.foldr_nil, Nat.max_zero]

/-- Witness for C8 (amended) at `c8Env`: the pydub iteration blocks for the
audio duration plus 500 ms. -/
theorem C8_stop_responsiveness_amended_witness :
    maxBlock c8Env = c8Env.penv.pydubMillis + 500 :=
  (C8_stop_responsiveness_amended c8Env).2.1 ⟨by decide, rfl⟩

end Drowsiness
